import Mathlib

/-!
Verification of the persistence and aggregation layer of the
streamer-help backend (src/server.js).

The server keeps two flat collections, Users and ActivityEvents, in two
JSON files, and exposes three write/read operations modelled here as pure
functions over the in-memory collections:

* `register`       — the POST /api/register handler (lines 77–111);
* `recordActivity` — the POST /api/activity handler (lines 114–151);
* `computeStats`   — the GET /api/stats handler (lines 176–202);
* `readUsers` / `readActivity` — the fail-open loaders (lines 48–68),
  modelled over an abstract file state, since their behaviour depends on
  whether the file reads and JSON parsing succeed;
* `initializeStorage` — startup initialization (lines 23–45), modelled
  over an abstract storage state.

Request bodies are JSON objects whose fields may be absent; an absent
field is `none`.  JavaScript truthiness on string fields (`!id`) treats
both an absent field and the empty string as falsy, captured by `falsy`.
The `x || d` defaulting idiom is captured by `orDefault`.
-/

namespace StreamerHelp

/-- A stored user record (fields as written by the register handler). -/
structure User where
  id : String
  username : String
  email : String
  registeredAt : String
  version : String
  lastActive : String
deriving DecidableEq, Repr

/-- A stored activity event (fields as written by the activity handler). -/
structure ActivityEvent where
  userId : String
  action : String
  messagesSent : Nat
  timestamp : String
deriving DecidableEq, Repr

/-- Body of a POST /api/register request; absent fields are `none`. -/
structure RegisterReq where
  id : Option String
  username : Option String
  email : Option String
  registeredAt : Option String
  version : Option String
deriving DecidableEq, Repr

/-- Body of a POST /api/activity request; absent fields are `none`. -/
structure ActivityReq where
  userId : Option String
  action : Option String
  messagesSent : Option Nat
  timestamp : Option String
deriving DecidableEq, Repr

/-- JavaScript truthiness test `!x` on a string-valued field that may be
absent: absent (`undefined`) and the empty string are falsy. -/
def falsy : Option String → Bool
  | none => true
  | some s => s == ""

/-- The JavaScript defaulting idiom `x || d` on a string-valued field:
yields `d` when the field is absent or the empty string. -/
def orDefault (o : Option String) (d : String) : String :=
  match o with
  | none => d
  | some s => if s == "" then d else s

/-- Outcome of the register handler: HTTP 400, the idempotent
"User already registered" 200 response, or the created-user 200 response. -/
inductive RegisterResult where
  | badRequest
  | alreadyRegistered (user : User)
  | created (user : User)
deriving DecidableEq, Repr

/-- The POST /api/register handler (src/server.js lines 77–111), as a pure
function of the request body, the loaded Users collection and the current
time; returns the response together with the stored Users collection. -/
def register (req : RegisterReq) (users : List User) (now : String) :
    RegisterResult × List User :=
  if falsy req.id || falsy req.username || falsy req.email then
    (.badRequest, users)
  else
    match users.find? (fun u => req.id == some u.id || req.email == some u.email) with
    | some existingUser => (.alreadyRegistered existingUser, users)
    | none =>
      let newUser : User :=
        { id := req.id.getD ""
          username := req.username.getD ""
          email := req.email.getD ""
          registeredAt := orDefault req.registeredAt now
          version := orDefault req.version "1.0.0"
          lastActive := now }
      (.created newUser, users ++ [newUser])

/-- Outcome of the activity handler: HTTP 400 or success. -/
inductive ActivityResult where
  | badRequest
  | success
deriving DecidableEq, Repr

/-- The `users.findIndex` / `users[userIndex].lastActive = t` step of the
activity handler (lines 124–127): sets `lastActive` of the first user whose
`id` equals the request's `userId`, leaving everything else unchanged; the
whole list is unchanged when no user matches. -/
def updateFirstLastActive (uid : Option String) (t : String) :
    List User → List User
  | [] => []
  | u :: rest =>
      if uid == some u.id then { u with lastActive := t } :: rest
      else u :: updateFirstLastActive uid t rest

/-- The event object pushed by the activity handler (lines 132–137). -/
def mkEvent (req : ActivityReq) (now : String) : ActivityEvent :=
  { userId := req.userId.getD ""
    action := req.action.getD ""
    messagesSent := req.messagesSent.getD 0
    timestamp := orDefault req.timestamp now }

/-- The POST /api/activity handler (src/server.js lines 114–151), as a pure
function of the request body, the two loaded collections and the current
time; returns the response together with both stored collections.  The
`activity.splice(0, activity.length - 1000)` retention step becomes a
`List.drop` from the front. -/
def recordActivity (req : ActivityReq) (users : List User)
    (activity : List ActivityEvent) (now : String) :
    ActivityResult × List User × List ActivityEvent :=
  if falsy req.userId || falsy req.action then
    (.badRequest, users, activity)
  else
    let users1 := updateFirstLastActive req.userId (orDefault req.timestamp now) users
    let activity1 := activity ++ [mkEvent req now]
    let activity2 :=
      if activity1.length > 1000 then activity1.drop (activity1.length - 1000)
      else activity1
    (.success, users1, activity2)

/-- Result of the GET /api/stats handler. -/
structure Stats where
  totalUsers : Nat
  activeToday : Nat
  totalMessages : Nat
deriving DecidableEq, Repr

/-- The JavaScript `s.split('T')[0]` date truncation used by the stats
handler: everything before the first 'T' (the whole string when no 'T'). -/
def dateOf (s : String) : String := String.mk (s.data.takeWhile (fun c => c != 'T'))

/-- The GET /api/stats handler (src/server.js lines 176–202), as a pure
function of the two loaded collections and the current time.  The
`u.lastActive ? u.lastActive.split('T')[0] : null` guard makes a user with
a falsy (empty) `lastActive` compare as `null`, which never equals the
`today` string. -/
def computeStats (users : List User) (activity : List ActivityEvent)
    (now : String) : Stats :=
  let today := dateOf now
  { totalUsers := users.length
    activeToday :=
      (users.filter
        (fun u => !(u.lastActive == "") && dateOf u.lastActive == today)).length
    totalMessages :=
      ((activity.filter (fun a => a.action == "stop")).map
        ActivityEvent.messagesSent).sum }

/-- A JSON value, as produced by JavaScript's JSON.parse. -/
inductive Json where
  | null
  | bool (b : Bool)
  | num (n : Int)
  | str (s : String)
  | arr (elems : List Json)
  | obj (fields : List (String × Json))
deriving Repr

/-- State of one backing file as seen by a loader: the file read can fail
because the file is absent or unreadable, the read content can fail to
parse as JSON, or it parses to some JSON value. -/
inductive FileState where
  | absent
  | unreadable
  | invalidJson (raw : String)
  | validJson (value : Json)
deriving Repr

/-- The readUsers loader (src/server.js lines 48–55): try
readFile + JSON.parse, and on any failure return the empty array; a
successful parse is returned as-is, with no structural validation. -/
def readUsers : FileState → Json
  | .absent => .arr []
  | .unreadable => .arr []
  | .invalidJson _ => .arr []
  | .validJson v => v

/-- The readActivity loader (src/server.js lines 61–68): identical
fail-open behaviour over the activity file. -/
def readActivity : FileState → Json
  | .absent => .arr []
  | .unreadable => .arr []
  | .invalidJson _ => .arr []
  | .validJson v => v

/-- State of the storage directory and the two backing files at process
start; a file is `none` when missing. -/
structure StorageState where
  dirExists : Bool
  usersFile : Option String
  activityFile : Option String
deriving DecidableEq, Repr

/-- The initializeStorage startup step (src/server.js lines 23–45):
mkdir -p the storage directory, then for each of the two files write
`JSON.stringify([])` only when `fs.access` fails (the file is missing). -/
def initializeStorage (st : StorageState) : StorageState :=
  let st1 : StorageState := { st with dirExists := true }
  let st2 : StorageState :=
    match st1.usersFile with
    | none => { st1 with usersFile := some "[]" }
    | some _ => st1
  match st2.activityFile with
  | none => { st2 with activityFile := some "[]" }
  | some _ => st2

/-! Helper lemmas shared by the claim theorems. -/

theorem falsy_of_none {o : Option String} (h : o = none) : falsy o = true := by
  rw [h]; rfl

theorem falsy_of_empty {o : Option String} (h : o = some "") : falsy o = true := by
  rw [h]; rfl

/-- C3: a register call missing `id`, `username`, or `email`, and an
activity call missing `userId` or `action`, return the 400 validation
error and leave both stored collections exactly as they were. -/
theorem validation_rejects_and_preserves :
    (∀ (req : RegisterReq) (users : List User) (now : String),
        req.id = none ∨ req.username = none ∨ req.email = none →
        register req users now = (RegisterResult.badRequest, users)) ∧
    (∀ (req : ActivityReq) (users : List User) (activity : List ActivityEvent)
        (now : String),
        req.userId = none ∨ req.action = none →
        recordActivity req users activity now =
          (ActivityResult.badRequest, users, activity)) := by
  constructor
  · intro req users now h
    have hc : (falsy req.id || falsy req.username || falsy req.email) = true := by
      rcases h with h | h | h <;> simp [falsy_of_none h]
    simp [register, hc]
  · intro req users activity now h
    have hc : (falsy req.userId || falsy req.action) = true := by
      rcases h with h | h <;> simp [falsy_of_none h]
    simp [recordActivity, hc]

/-- Witness for C3 at a concrete missing-field input. -/
theorem validation_rejects_and_preserves_witness :
    register ⟨none, some "a", some "a@x", none, none⟩ [] "T1" =
        (RegisterResult.badRequest, []) ∧
    recordActivity ⟨some "u1", none, none, none⟩ [] [] "T1" =
        (ActivityResult.badRequest, [], []) :=
  ⟨validation_rejects_and_preserves.1 _ [] "T1" (Or.inl rfl),
   validation_rejects_and_preserves.2 _ [] [] "T1" (Or.inr rfl)⟩

/-- C9: an empty-string value in a required field is treated exactly like
an absent field: the call is rejected with the 400 validation error and
neither stored collection is mutated. -/
theorem empty_string_fields_rejected :
    (∀ (req : RegisterReq) (users : List User) (now : String),
        req.id = some "" ∨ req.username = some "" ∨ req.email = some "" →
        register req users now = (RegisterResult.badRequest, users)) ∧
    (∀ (req : ActivityReq) (users : List User) (activity : List ActivityEvent)
        (now : String),
        req.userId = some "" ∨ req.action = some "" →
        recordActivity req users activity now =
          (ActivityResult.badRequest, users, activity)) := by
  constructor
  · intro req users now h
    have hc : (falsy req.id || falsy req.username || falsy req.email) = true := by
      rcases h with h | h | h <;> simp [falsy_of_empty h]
    simp [register, hc]
  · intro req users activity now h
    have hc : (falsy req.userId || falsy req.action) = true := by
      rcases h with h | h <;> simp [falsy_of_empty h]
    simp [recordActivity, hc]

/-- Witness for C9 at a concrete empty-string input. -/
theorem empty_string_fields_rejected_witness :
    register ⟨some "", some "a", some "a@x", none, none⟩ [] "T1" =
        (RegisterResult.badRequest, []) ∧
    recordActivity ⟨some "u1", some "", none, none⟩ [] [] "T1" =
        (ActivityResult.badRequest, [], []) :=
  ⟨empty_string_fields_rejected.1 _ [] "T1" (Or.inl rfl),
   empty_string_fields_rejected.2 _ [] [] "T1" (Or.inr rfl)⟩

/-- C5 counterexample: a backing file whose content parses as JSON but is
not an array (here the empty object) is returned as-is by the loader, not
replaced by the empty sequence, so the claim's "not valid for the expected
structure" case does not hold as stated. -/
theorem readUsers_wrong_structure_counterexample :
    readUsers (FileState.validJson (Json.obj [])) = Json.obj [] ∧
    Json.obj [] ≠ Json.arr [] :=
  ⟨rfl, fun h => Json.noConfusion h⟩

/-- C5 (amended): the loaders return the empty sequence when the backing
file is absent, unreadable, or not parseable as JSON; content that parses
as JSON is returned as-is, with no structural validation. -/
theorem load_fail_open :
    (∀ raw : String,
        readUsers FileState.absent = Json.arr [] ∧
        readUsers FileState.unreadable = Json.arr [] ∧
        readUsers (FileState.invalidJson raw) = Json.arr [] ∧
        readActivity FileState.absent = Json.arr [] ∧
        readActivity FileState.unreadable = Json.arr [] ∧
        readActivity (FileState.invalidJson raw) = Json.arr []) ∧
    (∀ j : Json,
        readUsers (FileState.validJson j) = j ∧
        readActivity (FileState.validJson j) = j) :=
  ⟨fun _ => ⟨rfl, rfl, rfl, rfl, rfl, rfl⟩, fun _ => ⟨rfl, rfl⟩⟩

/-- C8: startup initialization makes the storage directory exist, writes
the empty collection to each backing file only when that file is missing,
and leaves an existing file's content unchanged. -/
theorem initializeStorage_preserves_existing (st : StorageState) :
    (initializeStorage st).dirExists = true ∧
    (st.usersFile = none → (initializeStorage st).usersFile = some "[]") ∧
    (∀ c, st.usersFile = some c → (initializeStorage st).usersFile = some c) ∧
    (st.activityFile = none → (initializeStorage st).activityFile = some "[]") ∧
    (∀ c, st.activityFile = some c → (initializeStorage st).activityFile = some c) := by
  obtain ⟨d, uf, af⟩ := st
  cases uf <;> cases af <;>
    simp [initializeStorage]

/-- Witness for C8: one missing file and one existing file. -/
theorem initializeStorage_preserves_existing_witness :
    (initializeStorage ⟨false, none, some "[1]"⟩).usersFile = some "[]" ∧
    (initializeStorage ⟨false, none, some "[1]"⟩).activityFile = some "[1]" :=
  ⟨(initializeStorage_preserves_existing ⟨false, none, some "[1]"⟩).2.1 rfl,
   (initializeStorage_preserves_existing ⟨false, none, some "[1]"⟩).2.2.2.2 "[1]" rfl⟩

/-- C4: `totalMessages` sums `messagesSent` over exactly the events whose
`action` is the sentinel "stop"; an event with any other action
contributes nothing, whatever its `messagesSent`. -/
theorem computeStats_totalMessages_stop_only (users : List User)
    (activity : List ActivityEvent) (now : String) :
    (computeStats users activity now).totalMessages =
      (activity.map
        (fun a => if a.action = "stop" then a.messagesSent else 0)).sum := by
  simp only [computeStats]
  induction activity with
  | nil => rfl
  | cons a rest ih =>
    by_cases h : a.action = "stop"
    · simp [List.filter_cons, h, ih]
    · simp [List.filter_cons, h, ih]

/-- A concrete stored user, used by witnesses. -/
def demoUser : User :=
  { id := "u1", username := "a", email := "a@x",
    registeredAt := "T1", version := "1.0.0", lastActive := "T1" }

/-- C1: when the Users collection already holds a user whose `id` or
`email` matches a (well-formed) register request, the handler leaves the
collection untouched and answers with the already-registered success
response carrying an existing matching user's record. -/
theorem register_duplicate_idempotent (req : RegisterReq) (users : List User)
    (now : String)
    (hid : falsy req.id = false) (hun : falsy req.username = false)
    (hem : falsy req.email = false)
    (hex : ∃ u ∈ users, req.id = some u.id ∨ req.email = some u.email) :
    ∃ u ∈ users, (req.id = some u.id ∨ req.email = some u.email) ∧
      register req users now = (RegisterResult.alreadyRegistered u, users) := by
  have hsome :
      (users.find? (fun u => req.id == some u.id || req.email == some u.email)).isSome = true := by
    rw [List.find?_isSome]
    obtain ⟨u, hu, hmatch⟩ := hex
    exact ⟨u, hu, by rcases hmatch with h | h <;> simp [h]⟩
  obtain ⟨u, hu⟩ := Option.isSome_iff_exists.mp hsome
  refine ⟨u, List.mem_of_find?_eq_some hu, ?_, ?_⟩
  · have hp := List.find?_some hu
    simpa using hp
  · simp [register, hid, hun, hem, hu]

/-- Witness for C1: a second registration with the same id. -/
theorem register_duplicate_idempotent_witness :
    ∃ u ∈ [demoUser],
      ((some "u1" : Option String) = some u.id ∨
       (some "b@x" : Option String) = some u.email) ∧
      register ⟨some "u1", some "b", some "b@x", none, none⟩ [demoUser] "T2" =
        (RegisterResult.alreadyRegistered u, [demoUser]) :=
  register_duplicate_idempotent ⟨some "u1", some "b", some "b@x", none, none⟩
    [demoUser] "T2" rfl rfl rfl ⟨demoUser, List.mem_singleton.mpr rfl, Or.inl rfl⟩

theorem updateFirstLastActive_no_match (uid : Option String) (t : String)
    (users : List User) (h : ∀ u ∈ users, uid ≠ some u.id) :
    updateFirstLastActive uid t users = users := by
  induction users with
  | nil => rfl
  | cons u rest ih =>
    have h1 : (uid == some u.id) = false :=
      beq_eq_false_iff_ne.mpr (h u (List.mem_cons_self u rest))
    simp only [updateFirstLastActive, h1, Bool.false_eq_true, if_false, List.cons.injEq,
      true_and]
    exact ih fun v hv => h v (List.mem_cons_of_mem u hv)

theorem trim_eq_drop (l : List ActivityEvent) :
    (if l.length > 1000 then l.drop (l.length - 1000) else l) =
      l.drop (l.length - 1000) := by
  by_cases h : l.length > 1000
  · simp [h]
  · have h0 : l.length - 1000 = 0 := Nat.sub_eq_zero_of_le (le_of_not_lt h)
    simp [h, h0]

/-- C6: an activity call whose `userId` matches no stored user still
succeeds: the Users collection is returned unchanged and the event is
still appended to the ActivityEvents collection (subject to retention). -/
theorem recordActivity_unknown_userId (req : ActivityReq) (users : List User)
    (activity : List ActivityEvent) (now : String)
    (hu : falsy req.userId = false) (ha : falsy req.action = false)
    (hnomatch : ∀ u ∈ users, req.userId ≠ some u.id) :
    recordActivity req users activity now =
      (ActivityResult.success, users,
        (activity ++ [mkEvent req now]).drop (activity.length + 1 - 1000)) := by
  simp only [recordActivity, hu, ha, Bool.or_self, Bool.false_eq_true, if_false,
    updateFirstLastActive_no_match req.userId _ users hnomatch]
  rw [trim_eq_drop]
  simp

/-- Witness for C6: unknown user id, event still recorded. -/
theorem recordActivity_unknown_userId_witness :
    recordActivity ⟨some "ghost", some "stop", some 2, some "T9"⟩ [demoUser] [] "T9" =
      (ActivityResult.success, [demoUser],
        ([] ++ [mkEvent ⟨some "ghost", some "stop", some 2, some "T9"⟩ "T9"]).drop
          (List.length ([] : List ActivityEvent) + 1 - 1000)) :=
  recordActivity_unknown_userId ⟨some "ghost", some "stop", some 2, some "T9"⟩
    [demoUser] [] "T9" rfl rfl
    (by intro u hu; rw [List.mem_singleton.mp hu]; decide)

theorem updateFirstLastActive_split (uid : Option String) (t : String)
    (pre post : List User) (u : User)
    (hmatch : uid = some u.id) :
    ∀ _ : ∀ v ∈ pre, uid ≠ some v.id,
    updateFirstLastActive uid t (pre ++ u :: post) =
      pre ++ { u with lastActive := t } :: post := by
  induction pre with
  | nil =>
    intro _
    have h1 : (uid == some u.id) = true := by simp [hmatch]
    simp [updateFirstLastActive, h1]
  | cons v rest ih =>
    intro hpre
    have h1 : (uid == some v.id) = false :=
      beq_eq_false_iff_ne.mpr (hpre v (List.mem_cons_self v rest))
    simp only [List.cons_append, updateFirstLastActive, h1, Bool.false_eq_true, if_false,
      List.cons.injEq, true_and]
    exact ih fun w hw => hpre w (List.mem_cons_of_mem v hw)

/-- C10: when the request's `userId` matches a stored user (the first
match, earlier users not matching), the new Users collection differs only
in that user's `lastActive` field: same order, same length, every other
user identical, and every other field of the matched user identical. -/
theorem recordActivity_frame_on_users (req : ActivityReq)
    (pre post : List User) (u : User) (activity : List ActivityEvent)
    (now : String)
    (hu : falsy req.userId = false) (ha : falsy req.action = false)
    (hpre : ∀ v ∈ pre, req.userId ≠ some v.id)
    (hmatch : req.userId = some u.id) :
    (recordActivity req (pre ++ u :: post) activity now).2.1 =
      pre ++ { u with lastActive := orDefault req.timestamp now } :: post := by
  simp only [recordActivity, hu, ha, Bool.or_self, Bool.false_eq_true, if_false]
  exact updateFirstLastActive_split req.userId _ pre post u hmatch hpre

/-- Witness for C10: the matched user's lastActive is replaced, the other
user and the matched user's other fields are untouched. -/
theorem recordActivity_frame_on_users_witness :
    (recordActivity ⟨some "u1", some "go", none, some "T7"⟩
        ([⟨"u0", "z", "z@x", "T0", "2.0.0", "T0"⟩] ++ demoUser :: []) [] "T8").2.1 =
      [⟨"u0", "z", "z@x", "T0", "2.0.0", "T0"⟩] ++
        { demoUser with lastActive := orDefault (some "T7") "T8" } :: [] :=
  recordActivity_frame_on_users ⟨some "u1", some "go", none, some "T7"⟩
    [⟨"u0", "z", "z@x", "T0", "2.0.0", "T0"⟩] [] demoUser [] "T8" rfl rfl
    (by intro v hv; rw [List.mem_singleton.mp hv]; decide) rfl

theorem dateOf_empty : dateOf "" = "" := rfl

/-- C7: `activeToday` counts exactly the users whose `lastActive`
timestamp truncates (at the first 'T') to the current date, provided the
current time has a nonempty date component, as every ISO timestamp does. -/
theorem computeStats_activeToday_count (users : List User)
    (activity : List ActivityEvent) (now : String)
    (hnow : dateOf now ≠ "") :
    (computeStats users activity now).activeToday =
      (users.filter (fun u => dateOf u.lastActive == dateOf now)).length := by
  simp only [computeStats]
  congr 1
  apply List.filter_congr
  intro u _
  by_cases hla : u.lastActive = ""
  · have h1 : (u.lastActive == "") = true := by simp [hla]
    have h2 : (dateOf u.lastActive == dateOf now) = false := by
      rw [hla, dateOf_empty]
      exact beq_eq_false_iff_ne.mpr fun h => hnow h.symm
    simp [h1, h2]
  · have h1 : (u.lastActive == "") = false := beq_eq_false_iff_ne.mpr hla
    simp [h1]

/-- Witness for C7: matches the spec's example, one user active today and
one active yesterday. -/
theorem computeStats_activeToday_count_witness :
    (computeStats
        [{ demoUser with lastActive := "2026-10-12T09:00:00Z" },
         { demoUser with id := "u2", email := "b@x",
                         lastActive := "2026-10-11T09:00:00Z" }]
        [] "2026-10-12T10:00:00.000Z").activeToday =
      ([{ demoUser with lastActive := "2026-10-12T09:00:00Z" },
        { demoUser with id := "u2", email := "b@x",
                        lastActive := "2026-10-11T09:00:00Z" }].filter
        (fun u => dateOf u.lastActive == dateOf "2026-10-12T10:00:00.000Z")).length :=
  computeStats_activeToday_count _ [] "2026-10-12T10:00:00.000Z" (by decide)

/-- A concrete family of activity requests used for the 1005-call
retention scenario: all for the same (unregistered) user, with distinct
`messagesSent` payloads. -/
def demoReq (i : Nat) : ActivityReq :=
  { userId := some "u9", action := some "ping",
    messagesSent := some i, timestamp := some "2026-01-02T03:04:05.000Z" }

/-- The fixed current time used by the retention scenario. -/
def demoNow : String := "2026-01-01T00:00:00.000Z"

/-- The event stored for the i-th call of the retention scenario. -/
def demoEvent (i : Nat) : ActivityEvent := mkEvent (demoReq i) demoNow

/-- Runs `recordActivity` k times starting from empty collections,
feeding it the demo requests in order; returns the stored collections. -/
def recordLoop : Nat → List User × List ActivityEvent
  | 0 => ([], [])
  | k + 1 =>
      let prev := recordLoop k
      let r := recordActivity (demoReq k) prev.1 prev.2 demoNow
      (r.2.1, r.2.2)

theorem recordActivity_stored_formula (req : ActivityReq) (users : List User)
    (activity : List ActivityEvent) (now : String)
    (hu : falsy req.userId = false) (ha : falsy req.action = false) :
    (recordActivity req users activity now).2.2 =
      (activity ++ [mkEvent req now]).drop (activity.length + 1 - 1000) := by
  simp only [recordActivity, hu, ha, Bool.or_self, Bool.false_eq_true, if_false]
  rw [trim_eq_drop]
  simp

theorem recordActivity_stored_length (req : ActivityReq) (users : List User)
    (activity : List ActivityEvent) (now : String)
    (hu : falsy req.userId = false) (ha : falsy req.action = false) :
    (recordActivity req users activity now).2.2.length =
      min (activity.length + 1) 1000 := by
  rw [recordActivity_stored_formula req users activity now hu ha]
  simp only [List.length_drop, List.length_append, List.length_cons, List.length_nil]
  omega

theorem retention_drop_step (xs : List ActivityEvent) (e : ActivityEvent) :
    (xs.drop (xs.length - 1000) ++ [e]).drop
        ((xs.drop (xs.length - 1000)).length + 1 - 1000) =
      (xs ++ [e]).drop (xs.length + 1 - 1000) := by
  rw [List.drop_append_eq_append_drop, List.drop_append_eq_append_drop,
    List.drop_drop, List.length_drop]
  have e1 : xs.length - 1000 + (xs.length - (xs.length - 1000) + 1 - 1000)
      = xs.length + 1 - 1000 := by omega
  have e2 : xs.length - (xs.length - 1000) + 1 - 1000 - (xs.length - (xs.length - 1000))
      = 0 := by omega
  have e3 : xs.length + 1 - 1000 - xs.length = 0 := by omega
  rw [e1, e2, e3]

theorem recordLoop_spec (k : Nat) :
    (recordLoop k).1 = [] ∧
    (recordLoop k).2 = ((List.range k).map demoEvent).drop (k - 1000) := by
  induction k with
  | zero => exact ⟨rfl, rfl⟩
  | succ k ih =>
    obtain ⟨ih1, ih2⟩ := ih
    have hvalid1 : falsy (demoReq k).userId = false := rfl
    have hvalid2 : falsy (demoReq k).action = false := rfl
    constructor
    · show (recordActivity (demoReq k) (recordLoop k).1 (recordLoop k).2 demoNow).2.1 = []
      rw [ih1]
      simp only [recordActivity, hvalid1, hvalid2, Bool.or_self, Bool.false_eq_true,
        if_false]
      rfl
    · show (recordActivity (demoReq k) (recordLoop k).1 (recordLoop k).2 demoNow).2.2 = _
      rw [recordActivity_stored_formula _ _ _ _ hvalid1 hvalid2, ih2,
        List.range_succ, List.map_append]
      have hstep := retention_drop_step ((List.range k).map demoEvent) (demoEvent k)
      simp only [List.length_map, List.length_range] at hstep
      simpa [demoEvent] using hstep

/-- C2: the stored ActivityEvents collection after a (well-formed)
recordActivity call is exactly the last min(n+1, 1000) entries of the old
collection with the new event appended, eviction being a drop from the
front; and 1005 calls starting from empty store exactly 1000 events, the
5 oldest of which are absent. -/
theorem recordActivity_retention :
    (∀ (req : ActivityReq) (users : List User) (activity : List ActivityEvent)
        (now : String), falsy req.userId = false → falsy req.action = false →
        (recordActivity req users activity now).2.2 =
          (activity ++ [mkEvent req now]).drop (activity.length + 1 - 1000) ∧
        (recordActivity req users activity now).2.2.length =
          min (activity.length + 1) 1000) ∧
    (recordLoop 1005).2.length = 1000 ∧
    (recordLoop 1005).2 = ((List.range 1005).map demoEvent).drop 5 ∧
    (∀ i < 5, demoEvent i ∉ (recordLoop 1005).2) := by
  have hloop := (recordLoop_spec 1005).2
  refine ⟨fun req users activity now hu ha =>
    ⟨recordActivity_stored_formula req users activity now hu ha,
     recordActivity_stored_length req users activity now hu ha⟩, ?_, ?_, ?_⟩
  · rw [hloop]
    simp
  · exact hloop
  · intro i hi hmem
    rw [hloop, ← List.map_drop] at hmem
    obtain ⟨j, hj, hje⟩ := List.mem_map.mp hmem
    obtain ⟨m, hm, hjm⟩ := List.mem_drop_iff_getElem.mp hj
    rw [List.getElem_range] at hjm
    have hmsg : (demoEvent j).messagesSent = (demoEvent i).messagesSent :=
      congrArg ActivityEvent.messagesSent hje
    simp only [demoEvent, mkEvent, demoReq, Option.getD_some] at hmsg
    omega

/-- Witness for C2: a concrete well-formed call, and a concrete evicted
event from the 1005-call scenario. -/
theorem recordActivity_retention_witness :
    ((recordActivity ⟨some "u9", some "ping", some 0, none⟩ [] [] "T").2.2 =
        ([] ++ [mkEvent ⟨some "u9", some "ping", some 0, none⟩ "T"]).drop
          (List.length ([] : List ActivityEvent) + 1 - 1000) ∧
     (recordActivity ⟨some "u9", some "ping", some 0, none⟩ [] [] "T").2.2.length =
        min (List.length ([] : List ActivityEvent) + 1) 1000) ∧
    demoEvent 0 ∉ (recordLoop 1005).2 :=
  ⟨recordActivity_retention.1 ⟨some "u9", some "ping", some 0, none⟩ [] [] "T" rfl rfl,
   recordActivity_retention.2.2.2 0 (by decide)⟩

end StreamerHelp
